import Mathlib

/-!
Shallow embedding of `open_notebook/domain/models.py`: the `Model` record,
the `DefaultModels` configuration record, and the `ModelManager` caching
factory (`get_model`, `get_default_model`, the three typed convenience
accessors, `refresh_defaults`, `clear_cache`).

Modelling conventions:
* Python exceptions become an `Err` sum; each manager operation returns
  `Except Err PyObj × MMState`, always yielding the (possibly mutated)
  manager state so that cache mutation on failure paths is observable.
* Python object identity is modelled by a `serial : Nat` field stamped on
  every construction from a monotone counter `next_serial` held in the
  manager state: two constructions never share a serial, so value equality
  of `PyObj` coincides with reference identity of the Python objects.
* Keyword arguments (`**kwargs`) are an insertion-ordered association list
  of identifier/value pairs, as in CPython; `str(kwargs)` is embedded by
  `strParams`, rendering entries in insertion order exactly as Python does
  for a dict with string keys and integer values.
-/

namespace OpenNotebook

/-- Python keyword arguments: insertion-ordered key/value pairs
(integer-valued parameters; CPython renders an int by its decimal digits). -/
abbrev Params : Type := List (String × Nat)

/-- The single-quote character, used by CPython when rendering dict keys. -/
def sq : String := String.singleton (Char.ofNat 39)

/-- Embedding of CPython `str(kwargs)`: entries in insertion order,
rendered as single-quoted key, colon, space, decimal value, joined by
comma-space inside braces. -/
def strParams (kwargs : Params) : String :=
  "\x7b" ++
    String.intercalate ", "
      (kwargs.map (fun kv => sq ++ kv.1 ++ sq ++ ": " ++ toString kv.2)) ++
  "\x7d"

/-- The runtime classes an object held by the manager can belong to: the
four recognized model-capability classes from `open_notebook.models`, plus
a catch-all for any other Python class. -/
inductive PyClass where
  | LanguageModel
  | EmbeddingModel
  | SpeechToTextModel
  | TextToSpeechModel
  | OtherClass
deriving DecidableEq, Repr

/-- Printable class name, standing in for Python `type(obj)` in error
messages. -/
def clsName : PyClass → String
  | .LanguageModel => "LanguageModel"
  | .EmbeddingModel => "EmbeddingModel"
  | .SpeechToTextModel => "SpeechToTextModel"
  | .TextToSpeechModel => "TextToSpeechModel"
  | .OtherClass => "OtherClass"

/-- A Python object as the manager sees it: its runtime class, opaque
contents, and a serial number modelling reference identity (each
construction receives a fresh serial). -/
structure PyObj where
  cls : PyClass
  data : Nat
  serial : Nat
deriving DecidableEq, Repr

/-- Embedding of
`isinstance(x, (LanguageModel, EmbeddingModel, SpeechToTextModel, TextToSpeechModel))`. -/
def isModelType (o : PyObj) : Bool :=
  match o.cls with
  | .OtherClass => false
  | _ => true

/-- Python exceptions raised by the manager (and by constructors). -/
inductive Err where
  | assertionError (msg : String)
  | valueError (msg : String)
  | typeError (msg : String)
  | runtimeError (msg : String)
deriving DecidableEq, Repr

/-- The persisted `Model` record: display name, provider and type
(the id is the key under which the record is fetched). -/
structure Model where
  name : String
  provider : String
  type : String
deriving DecidableEq, Repr

/-- The `DefaultModels` singleton configuration record: one optional model
identifier per purpose, field for field as in the source. -/
structure DefaultModels where
  default_chat_model : Option String := none
  default_transformation_model : Option String := none
  large_context_model : Option String := none
  default_text_to_speech_model : Option String := none
  default_speech_to_text_model : Option String := none
  default_embedding_model : Option String := none
  default_tools_model : Option String := none
deriving DecidableEq, Repr

/-- What a registry constructor yields on success: the runtime class of
the new object and its opaque contents (identity is stamped on afterwards
by the manager from its serial counter). Constructors may also raise. -/
structure CtorResult where
  cls : PyClass
  data : Nat
deriving DecidableEq, Repr

/-- A registry constructor: called with the model record name and the
caller keyword parameters; may raise. -/
def Ctor : Type := String → Params → Except Err CtorResult

/-- Modelled from the spec: the external collaborators of the manager,
which live outside `domain/models.py`. `db` is the generic fetch-by-id of
the persistence layer backing `Model.get`; `registry` is the static
`MODEL_CLASS_MAP` type-to-provider-to-constructor table from
`open_notebook.models`; `defaultsRecord` is the persisted `DefaultModels`
singleton returned by the record layer get-or-create load. -/
structure Env where
  db : String → Option Model
  registry : String → Option (String → Option Ctor)
  defaultsRecord : DefaultModels

/-- The mutable state of the process-wide `ModelManager` instance:
`model_cache` is the `_model_cache` dict as an insertion-ordered
association list (newest first; keys are only ever inserted when absent),
`next_serial` is the identity counter (a modelling device, see above), and
`default_models` is the in-memory `_default_models` record. -/
structure MMState where
  model_cache : List (String × PyObj)
  next_serial : Nat
  default_models : Option DefaultModels
deriving DecidableEq, Repr

/-- Association-list lookup with string keys, embedding a Python dict
read. -/
def alookup (k : String) : List (String × PyObj) → Option PyObj
  | [] => none
  | kv :: rest => if kv.1 = k then some kv.2 else alookup k rest

/-- Embedding of the f-string cache key of `get_model`:
the identifier, a colon, then `str(kwargs)`. -/
def cacheKey (model_id : String) (kwargs : Params) : String :=
  model_id ++ ":" ++ strParams kwargs

/-- Embedding of `ModelManager.get_model`, line for line: cache lookup
with an isinstance check on a hit; on a miss the empty-id assertion, the
record fetch, the type and provider validations against the registry,
construction (the vestigial language-model self-reassignment branch is
kept as the identity conditional it is), cache insertion, return. -/
def get_model (env : Env) (st : MMState) (model_id : String)
    (kwargs : Params) : Except Err PyObj × MMState :=
  let cache_key := cacheKey model_id kwargs
  match alookup cache_key st.model_cache with
  | some cached_model =>
    if isModelType cached_model then
      (Except.ok cached_model, st)
    else
      (Except.error (Err.typeError
        ("Cached model is of unexpected type: " ++ clsName cached_model.cls)), st)
  | none =>
    if model_id.isEmpty then
      (Except.error (Err.assertionError "Model ID cannot be empty"), st)
    else
      match env.db model_id with
      | none =>
        (Except.error (Err.valueError
          ("Model with ID " ++ model_id ++ " not found")), st)
      | some model =>
        if model.type.isEmpty then
          (Except.error (Err.valueError ("Invalid model type: " ++ model.type)), st)
        else
          match env.registry model.type with
          | none =>
            (Except.error (Err.valueError
              ("Invalid model type: " ++ model.type)), st)
          | some provider_map =>
            match provider_map model.provider with
            | none =>
              (Except.error (Err.valueError
                ("Provider " ++ model.provider ++ " not compatible with "
                  ++ model.type ++ " models")), st)
            | some model_class =>
              match model_class model.name kwargs with
              | Except.error e => (Except.error e, st)
              | Except.ok r =>
                let model_instance : PyObj :=
                  { cls := r.cls, data := r.data, serial := st.next_serial }
                let model_instance :=
                  if model.type = "language" then model_instance else model_instance
                (Except.ok model_instance,
                  { st with
                    model_cache := (cache_key, model_instance) :: st.model_cache,
                    next_serial := st.next_serial + 1 })

/-- Embedding of `get_model` with the vestigial language-model
self-reassignment branch removed; otherwise identical. -/
def get_model_no_branch (env : Env) (st : MMState) (model_id : String)
    (kwargs : Params) : Except Err PyObj × MMState :=
  let cache_key := cacheKey model_id kwargs
  match alookup cache_key st.model_cache with
  | some cached_model =>
    if isModelType cached_model then
      (Except.ok cached_model, st)
    else
      (Except.error (Err.typeError
        ("Cached model is of unexpected type: " ++ clsName cached_model.cls)), st)
  | none =>
    if model_id.isEmpty then
      (Except.error (Err.assertionError "Model ID cannot be empty"), st)
    else
      match env.db model_id with
      | none =>
        (Except.error (Err.valueError
          ("Model with ID " ++ model_id ++ " not found")), st)
      | some model =>
        if model.type.isEmpty then
          (Except.error (Err.valueError ("Invalid model type: " ++ model.type)), st)
        else
          match env.registry model.type with
          | none =>
            (Except.error (Err.valueError
              ("Invalid model type: " ++ model.type)), st)
          | some provider_map =>
            match provider_map model.provider with
            | none =>
              (Except.error (Err.valueError
                ("Provider " ++ model.provider ++ " not compatible with "
                  ++ model.type ++ " models")), st)
            | some model_class =>
              match model_class model.name kwargs with
              | Except.error e => (Except.error e, st)
              | Except.ok r =>
                let model_instance : PyObj :=
                  { cls := r.cls, data := r.data, serial := st.next_serial }
                (Except.ok model_instance,
                  { st with
                    model_cache := (cache_key, model_instance) :: st.model_cache,
                    next_serial := st.next_serial + 1 })

/-- Embedding of `ModelManager.refresh_defaults`: reload the configuration
record from storage into the in-memory slot. -/
def refresh_defaults (env : Env) (st : MMState) : MMState :=
  { st with default_models := some env.defaultsRecord }

/-- Embedding of the `defaults` property: return the in-memory record,
refreshing once from storage when none is loaded yet; raise a
runtime error if a refresh still yields nothing. -/
def defaultsProp (env : Env) (st : MMState) :
    Except Err DefaultModels × MMState :=
  match st.default_models with
  | some d => (Except.ok d, st)
  | none =>
    let st1 := refresh_defaults env st
    match st1.default_models with
    | some d => (Except.ok d, st1)
    | none =>
      (Except.error (Err.runtimeError
        "Failed to initialize default models configuration"), st1)

/-- Python truthiness of a string: only the empty string is falsy. -/
def truthyStr (s : String) : Bool := !s.isEmpty

/-- Python truthiness of an optional string: `None` and the empty string
are falsy. -/
def truthyOpt : Option String → Bool
  | none => false
  | some s => truthyStr s

/-- Embedding of the Python `or` on optional default-model identifiers:
the left operand when truthy, the right one otherwise. -/
def pyOr (a b : Option String) : Option String :=
  if truthyOpt a then a else b

/-- Embedding of `ModelManager.get_default_model`: resolve the identifier
from the defaults record per purpose (transformation and tools fall back
to the chat default), raise when nothing truthy resolves, otherwise
delegate to `get_model`. -/
def get_default_model (env : Env) (st : MMState) (model_type : String)
    (kwargs : Params) : Except Err PyObj × MMState :=
  match defaultsProp env st with
  | (Except.error e, st1) => (Except.error e, st1)
  | (Except.ok d, st1) =>
    let model_id : Option String :=
      if model_type = "chat" then d.default_chat_model
      else if model_type = "transformation" then
        pyOr d.default_transformation_model d.default_chat_model
      else if model_type = "tools" then
        pyOr d.default_tools_model d.default_chat_model
      else if model_type = "embedding" then d.default_embedding_model
      else if model_type = "text_to_speech" then d.default_text_to_speech_model
      else if model_type = "speech_to_text" then d.default_speech_to_text_model
      else if model_type = "large_context" then d.large_context_model
      else none
    if truthyOpt model_id then
      get_model env st1 (model_id.getD "") kwargs
    else
      (Except.error (Err.valueError
        ("No default model configured for type: " ++ model_type)), st1)

/-- Embedding of the `speech_to_text` property: parameter-less default
lookup for its fixed purpose plus an isinstance check on the result. -/
def speech_to_text (env : Env) (st : MMState) : Except Err PyObj × MMState :=
  match get_default_model env st "speech_to_text" [] with
  | (Except.error e, st1) => (Except.error e, st1)
  | (Except.ok model, st1) =>
    if model.cls = PyClass.SpeechToTextModel then
      (Except.ok model, st1)
    else
      (Except.error (Err.typeError
        ("Expected SpeechToTextModel but got " ++ clsName model.cls)), st1)

/-- Embedding of the `text_to_speech` property: parameter-less default
lookup for its fixed purpose plus an isinstance check on the result. -/
def text_to_speech (env : Env) (st : MMState) : Except Err PyObj × MMState :=
  match get_default_model env st "text_to_speech" [] with
  | (Except.error e, st1) => (Except.error e, st1)
  | (Except.ok model, st1) =>
    if model.cls = PyClass.TextToSpeechModel then
      (Except.ok model, st1)
    else
      (Except.error (Err.typeError
        ("Expected TextToSpeechModel but got " ++ clsName model.cls)), st1)

/-- Embedding of the `embedding_model` property: parameter-less default
lookup for its fixed purpose plus an isinstance check on the result. -/
def embedding_model (env : Env) (st : MMState) : Except Err PyObj × MMState :=
  match get_default_model env st "embedding" [] with
  | (Except.error e, st1) => (Except.error e, st1)
  | (Except.ok model, st1) =>
    if model.cls = PyClass.EmbeddingModel then
      (Except.ok model, st1)
    else
      (Except.error (Err.typeError
        ("Expected EmbeddingModel but got " ++ clsName model.cls)), st1)

/-- Embedding of `ModelManager.clear_cache`: empty the cache dict. -/
def clear_cache (st : MMState) : MMState :=
  { st with model_cache := [] }

/-! Concrete fixtures used by counterexamples and witnesses. -/

/-- A constructor that builds a language-model client, ignoring its
arguments. -/
def ctor0 : Ctor := fun _ _ => Except.ok { cls := PyClass.LanguageModel, data := 0 }

/-- A constructor that returns an object outside the recognized model
classes. -/
def ctorBad : Ctor := fun _ _ => Except.ok { cls := PyClass.OtherClass, data := 7 }

/-- A blank defaults record (every purpose unset). -/
def drec0 : DefaultModels := {}

/-- A defaults record with only the chat default set. -/
def drecChat : DefaultModels := { default_chat_model := some "m1" }

/-- A defaults record with only the speech-to-text default set. -/
def drecStt : DefaultModels := { default_speech_to_text_model := some "m1" }

/-- A concrete environment: one persisted chat model "m1" from provider
"openai", a registry with the matching constructor, a blank defaults
record in storage. -/
def testEnv : Env :=
  { db := fun i =>
      if i = "m1" then some { name := "gpt", provider := "openai", type := "chat" }
      else none
    registry := fun t =>
      if t = "chat" then some (fun pr => if pr = "openai" then some ctor0 else none)
      else none
    defaultsRecord := drec0 }

/-- A ready manager state: empty cache, blank defaults loaded. -/
def st0 : MMState := { model_cache := [], next_serial := 0, default_models := some drec0 }

/-- A ready manager state whose defaults set only the chat default. -/
def stChat : MMState :=
  { model_cache := [], next_serial := 0, default_models := some drecChat }

/-- A ready manager state whose defaults set only the speech-to-text
default. -/
def stStt : MMState :=
  { model_cache := [], next_serial := 0, default_models := some drecStt }

/-- The language-model instance built first (serial 0) in the fixtures. -/
def objA : PyObj := { cls := PyClass.LanguageModel, data := 0, serial := 0 }

/-! Helper lemmas shared by the claim theorems. -/

/-- Complete case analysis of one `get_model` call: either a cache hit
(returned as-is when recognized, a type error otherwise, the state
untouched either way), or a cache miss that fails with the state
untouched, or a cache miss that walks the whole resolution ladder and
succeeds, inserting the freshly stamped instance. -/
theorem get_model_cases (env : Env) (st : MMState) (model_id : String)
    (kwargs : Params) :
    (∃ o, alookup (cacheKey model_id kwargs) st.model_cache = some o ∧
      ((isModelType o = true ∧ get_model env st model_id kwargs = (Except.ok o, st)) ∨
       (isModelType o = false ∧
         get_model env st model_id kwargs =
           (Except.error (Err.typeError
             ("Cached model is of unexpected type: " ++ clsName o.cls)), st)))) ∨
    (alookup (cacheKey model_id kwargs) st.model_cache = none ∧
      ((∃ e, get_model env st model_id kwargs = (Except.error e, st)) ∨
       (∃ m pm c r, model_id.isEmpty = false ∧ env.db model_id = some m ∧
         m.type.isEmpty = false ∧ env.registry m.type = some pm ∧
         pm m.provider = some c ∧ c m.name kwargs = Except.ok r ∧
         get_model env st model_id kwargs =
           (Except.ok { cls := r.cls, data := r.data, serial := st.next_serial },
            { st with
              model_cache :=
                (cacheKey model_id kwargs,
                  { cls := r.cls, data := r.data, serial := st.next_serial })
                  :: st.model_cache,
              next_serial := st.next_serial + 1 })))) := by
  cases h1 : alookup (cacheKey model_id kwargs) st.model_cache with
  | some o =>
    left
    refine ⟨o, rfl, ?_⟩
    cases h2 : isModelType o with
    | true => exact Or.inl ⟨rfl, by simp [get_model, h1, h2]⟩
    | false => exact Or.inr ⟨rfl, by simp [get_model, h1, h2]⟩
  | none =>
    right
    refine ⟨rfl, ?_⟩
    cases h2 : model_id.isEmpty with
    | true =>
      exact Or.inl ⟨Err.assertionError "Model ID cannot be empty",
        by simp [get_model, h1, h2]⟩
    | false =>
      cases h3 : env.db model_id with
      | none =>
        exact Or.inl ⟨Err.valueError ("Model with ID " ++ model_id ++ " not found"),
          by simp [get_model, h1, h2, h3]⟩
      | some m =>
        cases h4 : m.type.isEmpty with
        | true =>
          exact Or.inl ⟨Err.valueError ("Invalid model type: " ++ m.type),
            by simp [get_model, h1, h2, h3, h4]⟩
        | false =>
          cases h5 : env.registry m.type with
          | none =>
            exact Or.inl ⟨Err.valueError ("Invalid model type: " ++ m.type),
              by simp [get_model, h1, h2, h3, h4, h5]⟩
          | some pm =>
            cases h6 : pm m.provider with
            | none =>
              exact Or.inl ⟨Err.valueError
                ("Provider " ++ m.provider ++ " not compatible with "
                  ++ m.type ++ " models"),
                by simp [get_model, h1, h2, h3, h4, h5, h6]⟩
            | some c =>
              cases h7 : c m.name kwargs with
              | error e =>
                exact Or.inl ⟨e, by simp [get_model, h1, h2, h3, h4, h5, h6, h7]⟩
              | ok r =>
                refine Or.inr ⟨m, pm, c, r, rfl, rfl, h4, h5, h6, h7, ?_⟩
                simp [get_model, h1, h2, h3, h4, h5, h6, h7]

/-- A cache hit on a recognized instance returns it with the state
untouched. -/
theorem get_model_hit (env : Env) (st : MMState) (model_id : String)
    (kwargs : Params) (o : PyObj)
    (h : alookup (cacheKey model_id kwargs) st.model_cache = some o)
    (hk : isModelType o = true) :
    get_model env st model_id kwargs = (Except.ok o, st) := by
  simp [get_model, h, hk]

/-- A non-empty string is not isEmpty. -/
theorem isEmpty_false_of_ne (s : String) (h : s ≠ "") : s.isEmpty = false := by
  cases hE : s.isEmpty with
  | false => rfl
  | true => exact absurd ((String.isEmpty_iff s).mp hE) h

/-- A manager state whose cache already holds an entry under the cache key
of the empty identifier with no parameters. -/
def stBad : MMState :=
  { model_cache := [(cacheKey "" [], objA)], next_serial := 5,
    default_models := some drec0 }

/-- C9: the branch of `get_model` that reassigns a language-model instance
to itself is a no-op — for every environment, manager state, identifier
and parameter list, `get_model` with the branch removed returns the same
result, raises the same errors and leaves the same cache state as
`get_model` with the branch present. -/
theorem dead_branch_equivalence :
    ∀ (env : Env) (st : MMState) (model_id : String) (kwargs : Params),
      get_model_no_branch env st model_id kwargs =
        get_model env st model_id kwargs := by
  intro env st model_id kwargs
  cases h1 : alookup (cacheKey model_id kwargs) st.model_cache with
  | some o => simp [get_model, get_model_no_branch, h1]
  | none =>
    cases h2 : model_id.isEmpty with
    | true => simp [get_model, get_model_no_branch, h1, h2]
    | false =>
      cases h3 : env.db model_id with
      | none => simp [get_model, get_model_no_branch, h1, h2, h3]
      | some m =>
        cases h4 : m.type.isEmpty with
        | true => simp [get_model, get_model_no_branch, h1, h2, h3, h4]
        | false =>
          cases h5 : env.registry m.type with
          | none => simp [get_model, get_model_no_branch, h1, h2, h3, h4, h5]
          | some pm =>
            cases h6 : pm m.provider with
            | none => simp [get_model, get_model_no_branch, h1, h2, h3, h4, h5, h6]
            | some c =>
              cases h7 : c m.name kwargs with
              | error e =>
                simp [get_model, get_model_no_branch, h1, h2, h3, h4, h5, h6, h7]
              | ok r =>
                simp [get_model, get_model_no_branch, h1, h2, h3, h4, h5, h6, h7]

/-- C10: `refresh_defaults` replaces only the in-memory defaults record
(with the stored one) and leaves every cache entry and the identity
counter unchanged; `clear_cache` empties only the cache and leaves the
in-memory defaults record and the identity counter unchanged — for every
environment and manager state. -/
theorem frame_separation :
    ∀ (env : Env) (st : MMState),
      (refresh_defaults env st).model_cache = st.model_cache ∧
      (refresh_defaults env st).next_serial = st.next_serial ∧
      (refresh_defaults env st).default_models = some env.defaultsRecord ∧
      (clear_cache st).default_models = st.default_models ∧
      (clear_cache st).next_serial = st.next_serial ∧
      (clear_cache st).model_cache = [] :=
  fun _ _ => ⟨rfl, rfl, rfl, rfl, rfl, rfl⟩

/-- C4, counterexample to the claim as stated: the empty-identifier
assertion sits after the cache lookup, so with a cache state that already
holds an entry under the empty identifier's key, `get_model ""` returns
that cached instance instead of failing with the precondition violation. -/
theorem empty_id_counterexample :
    get_model testEnv stBad "" [] = (Except.ok objA, stBad) := rfl

/-- C4, amended: for every empty identifier and parameter list, and every
cache state in which the corresponding cache key is absent (which holds in
every state reachable through the manager, since only non-empty
identifiers are ever cached), `get_model` fails with the
precondition-violation assertion error and leaves the state untouched. -/
theorem empty_id_precondition :
    ∀ (env : Env) (st : MMState) (kwargs : Params),
      alookup (cacheKey "" kwargs) st.model_cache = none →
      get_model env st "" kwargs =
        (Except.error (Err.assertionError "Model ID cannot be empty"), st) := by
  intro env st kwargs h
  simp [get_model, h, String.isEmpty]

/-- C4, witness: on the empty cache, `get_model ""` raises the assertion
error. -/
theorem empty_id_precondition_witness :
    get_model testEnv st0 "" [] =
      (Except.error (Err.assertionError "Model ID cannot be empty"), st0) :=
  empty_id_precondition testEnv st0 [] rfl

/-- C2: the cache-miss resolution ladder of `get_model` for a non-empty
identifier whose key is absent from the cache: a not-found error when no
record exists; an invalid-type error when the record type is empty or not
a registry key; an incompatible-provider error when the provider is not
registered under that type; otherwise construction via the registered
constructor from the record name and the caller parameters, insertion
under the key, and return of the new instance. -/
theorem get_model_miss_ladder :
    ∀ (env : Env) (st : MMState) (model_id : String) (kwargs : Params),
      alookup (cacheKey model_id kwargs) st.model_cache = none →
      model_id ≠ "" →
      (env.db model_id = none →
        get_model env st model_id kwargs =
          (Except.error (Err.valueError
            ("Model with ID " ++ model_id ++ " not found")), st)) ∧
      (∀ m, env.db model_id = some m → m.type = "" →
        get_model env st model_id kwargs =
          (Except.error (Err.valueError ("Invalid model type: " ++ m.type)), st)) ∧
      (∀ m, env.db model_id = some m → env.registry m.type = none →
        get_model env st model_id kwargs =
          (Except.error (Err.valueError ("Invalid model type: " ++ m.type)), st)) ∧
      (∀ m pm, env.db model_id = some m → m.type ≠ "" →
        env.registry m.type = some pm → pm m.provider = none →
        get_model env st model_id kwargs =
          (Except.error (Err.valueError
            ("Provider " ++ m.provider ++ " not compatible with "
              ++ m.type ++ " models")), st)) ∧
      (∀ m pm c r, env.db model_id = some m → m.type ≠ "" →
        env.registry m.type = some pm → pm m.provider = some c →
        c m.name kwargs = Except.ok r →
        get_model env st model_id kwargs =
          (Except.ok { cls := r.cls, data := r.data, serial := st.next_serial },
           { st with
             model_cache :=
               (cacheKey model_id kwargs,
                 { cls := r.cls, data := r.data, serial := st.next_serial })
                 :: st.model_cache,
             next_serial := st.next_serial + 1 })) := by
  intro env st model_id kwargs h hne
  have hE : model_id.isEmpty = false := isEmpty_false_of_ne model_id hne
  refine ⟨?_, ?_, ?_, ?_, ?_⟩
  · intro hdb
    simp [get_model, h, hE, hdb]
  · intro m hdb hty
    have h4 : m.type.isEmpty = true := by rw [hty]; rfl
    simp [get_model, h, hE, hdb, h4]
  · intro m hdb hreg
    cases h4 : m.type.isEmpty with
    | true => simp [get_model, h, hE, hdb, h4]
    | false => simp [get_model, h, hE, hdb, h4, hreg]
  · intro m pm hdb hty hreg hpm
    have h4 : m.type.isEmpty = false := isEmpty_false_of_ne m.type hty
    simp [get_model, h, hE, hdb, h4, hreg, hpm]
  · intro m pm c r hdb hty hreg hpm hc
    have h4 : m.type.isEmpty = false := isEmpty_false_of_ne m.type hty
    simp [get_model, h, hE, hdb, h4, hreg, hpm, hc]

/-- C2, witness: looking up an identifier absent from the store fails with
the not-found error and leaves the state untouched. -/
theorem get_model_miss_ladder_witness :
    get_model testEnv st0 "missing" [] =
      (Except.error (Err.valueError
        ("Model with ID " ++ "missing" ++ " not found")), st0) :=
  (get_model_miss_ladder testEnv st0 "missing" [] rfl (by decide)).1 rfl

/-- Left cancellation for string append. -/
theorem string_append_cancel_left (s t u : String) (h : s ++ t = s ++ u) :
    t = u := by
  have hd := congrArg String.data h
  simp only [String.data_append] at hd
  exact String.ext (List.append_cancel_left hd)

/-- Cache keys for one identifier differ whenever the parameter renderings
differ. -/
theorem cacheKey_ne_of_strParams_ne (model_id : String) (p q : Params)
    (h : strParams p ≠ strParams q) :
    cacheKey model_id p ≠ cacheKey model_id q := fun he =>
  h (string_append_cancel_left (model_id ++ ":") (strParams p) (strParams q) he)

/-- First call-order parameter list of the memoization counterexample. -/
def pA : Params := [("a", 1), ("b", 2)]

/-- The same parameters passed in the opposite keyword order. -/
def pB : Params := [("b", 2), ("a", 1)]

/-- The manager state after constructing and caching `objA` under the
`pA` key. -/
def stA : MMState :=
  { model_cache := [(cacheKey "m1" pA, objA)], next_serial := 1,
    default_models := some drec0 }

/-- The second, distinct instance (serial 1) constructed for the reordered
parameters. -/
def objB : PyObj := { cls := PyClass.LanguageModel, data := 0, serial := 1 }

/-- The manager state after the second construction: two distinct cache
entries for the two renderings of the same parameter mapping. -/
def stB : MMState :=
  { model_cache := [(cacheKey "m1" pB, objB), (cacheKey "m1" pA, objA)],
    next_serial := 2, default_models := some drec0 }

/-- C1, counterexample to the claim as stated: `pA` and `pB` are the same
keyword-parameter mapping (a permutation of the same key/value pairs, the
order differing only by call-site keyword order), yet because the cache
key renders the dict in insertion order, the second call is a miss that
constructs a fresh, non-identical instance and a second cache entry. -/
theorem memoization_counterexample :
    pA.Perm pB ∧
    get_model testEnv st0 "m1" pA = (Except.ok objA, stA) ∧
    get_model testEnv stA "m1" pB = (Except.ok objB, stB) ∧
    objB ≠ objA ∧ stB.next_serial = stA.next_serial + 1 :=
  ⟨by decide, rfl, rfl, by decide, rfl⟩

/-- C1, amended: a second `get_model` call with the same identifier and
the identically-rendered (same keyword order) parameter list returns the
very instance of the first call, as a cache hit that leaves the state
untouched (given the instance is of a recognized kind, which every real
registry constructor produces); while two calls whose parameter renderings
differ, neither key being cached beforehand, construct two distinct
instances under two distinct cache entries. -/
theorem get_model_memoization :
    (∀ (env : Env) (st : MMState) (model_id : String) (kwargs : Params)
        (o : PyObj) (st1 : MMState),
      get_model env st model_id kwargs = (Except.ok o, st1) →
      isModelType o = true →
      get_model env st1 model_id kwargs = (Except.ok o, st1)) ∧
    (∀ (env : Env) (st : MMState) (model_id : String) (p q : Params)
        (o : PyObj) (st1 : MMState) (o2 : PyObj) (st2 : MMState),
      strParams p ≠ strParams q →
      alookup (cacheKey model_id p) st.model_cache = none →
      alookup (cacheKey model_id q) st.model_cache = none →
      get_model env st model_id p = (Except.ok o, st1) →
      get_model env st1 model_id q = (Except.ok o2, st2) →
      o2 ≠ o ∧ o2.serial = st.next_serial + 1 ∧
      st2.next_serial = st.next_serial + 2 ∧
      alookup (cacheKey model_id q) st2.model_cache = some o2 ∧
      alookup (cacheKey model_id p) st2.model_cache = some o) := by
  constructor
  · intro env st model_id kwargs o st1 h hk
    rcases get_model_cases env st model_id kwargs with
      ⟨o', hlk, ⟨hk', hgm⟩ | ⟨hk', hgm⟩⟩ |
      ⟨hlk, ⟨e, hgm⟩ | ⟨m, pm, c, r, hE, hdb, hty, hreg, hpm, hc, hgm⟩⟩
    · rw [hgm] at h
      simp only [Prod.mk.injEq, Except.ok.injEq] at h
      obtain ⟨ho, hst⟩ := h
      subst ho; subst hst
      exact hgm
    · rw [hgm] at h
      exact absurd h (by simp)
    · rw [hgm] at h
      exact absurd h (by simp)
    · rw [hgm] at h
      simp only [Prod.mk.injEq, Except.ok.injEq] at h
      obtain ⟨ho, hst⟩ := h
      subst ho; subst hst
      exact get_model_hit env _ model_id kwargs _ (by simp [alookup]) hk
  · intro env st model_id p q o st1 o2 st2 hpq hp hq h1 h2
    rcases get_model_cases env st model_id p with
      ⟨o', hlk, _⟩ |
      ⟨hlk, ⟨e, hgm⟩ | ⟨m, pm, c, r, hE, hdb, hty, hreg, hpm, hc, hgm⟩⟩
    · rw [hp] at hlk; exact absurd hlk (by simp)
    · rw [hgm] at h1; exact absurd h1 (by simp)
    · rw [hgm] at h1
      simp only [Prod.mk.injEq, Except.ok.injEq] at h1
      obtain ⟨ho, hst⟩ := h1
      subst ho; subst hst
      have hkne : cacheKey model_id p ≠ cacheKey model_id q :=
        cacheKey_ne_of_strParams_ne model_id p q hpq
      have hq1 : alookup (cacheKey model_id q)
          ((cacheKey model_id p,
            { cls := r.cls, data := r.data, serial := st.next_serial })
            :: st.model_cache) = none := by
        simp [alookup, hkne, hq]
      rcases get_model_cases env
          { st with
            model_cache :=
              (cacheKey model_id p,
                { cls := r.cls, data := r.data, serial := st.next_serial })
                :: st.model_cache,
            next_serial := st.next_serial + 1 } model_id q with
        ⟨o', hlk2, _⟩ |
        ⟨hlk2, ⟨e2, hgm2⟩ | ⟨m2, pm2, c2, r2, hE2, hdb2, hty2, hreg2, hpm2, hc2, hgm2⟩⟩
      · rw [hq1] at hlk2; exact absurd hlk2 (by simp)
      · rw [hgm2] at h2; exact absurd h2 (by simp)
      · rw [hgm2] at h2
        simp only [Prod.mk.injEq, Except.ok.injEq] at h2
        obtain ⟨ho2, hst2⟩ := h2
        subst ho2; subst hst2
        refine ⟨?_, rfl, rfl, ?_, ?_⟩
        · intro he
          have := congrArg PyObj.serial he
          simp at this
        · simp [alookup]
        · have hkne2 := Ne.symm hkne
          simp [alookup, hkne2]

/-- C5: whenever `get_model` fails, for any of its failure reasons, the
manager state — the cache in particular — is exactly what it was before
the call. -/
theorem get_model_error_atomicity :
    ∀ (env : Env) (st : MMState) (model_id : String) (kwargs : Params)
      (e : Err),
      (get_model env st model_id kwargs).1 = Except.error e →
      (get_model env st model_id kwargs).2 = st := by
  intro env st model_id kwargs e h
  rcases get_model_cases env st model_id kwargs with
    ⟨o, hlk, ⟨hk, hgm⟩ | ⟨hk, hgm⟩⟩ |
    ⟨hlk, ⟨e2, hgm⟩ | ⟨m, pm, c, r, hE, hdb, hty, hreg, hpm, hc, hgm⟩⟩
  · rw [hgm] at h; exact absurd h (by simp)
  · rw [hgm]
  · rw [hgm]
  · rw [hgm] at h; exact absurd h (by simp)

/-- C5, witness: a not-found failure leaves the state untouched. -/
theorem get_model_error_atomicity_witness :
    (get_model testEnv st0 "missing" []).2 = st0 :=
  get_model_error_atomicity testEnv st0 "missing" []
    (Err.valueError ("Model with ID " ++ "missing" ++ " not found")) rfl

/-- C6: `clear_cache` empties the whole cache unconditionally; and a
`get_model` call for a pair cached by a preceding miss, issued after
`clear_cache`, is again a miss that performs one fresh construction,
returning a new instance distinct from the previously cached one. -/
theorem clear_cache_spec :
    (∀ st : MMState, (clear_cache st).model_cache = []) ∧
    (∀ (env : Env) (st : MMState) (model_id : String) (kwargs : Params)
        (o : PyObj) (st1 : MMState),
      alookup (cacheKey model_id kwargs) st.model_cache = none →
      get_model env st model_id kwargs = (Except.ok o, st1) →
      alookup (cacheKey model_id kwargs) (clear_cache st1).model_cache = none ∧
      ∃ o2 st2,
        get_model env (clear_cache st1) model_id kwargs = (Except.ok o2, st2) ∧
        o2 ≠ o ∧ st2.next_serial = (clear_cache st1).next_serial + 1) := by
  constructor
  · intro st; rfl
  · intro env st model_id kwargs o st1 hmiss h
    rcases get_model_cases env st model_id kwargs with
      ⟨o', hlk, _⟩ |
      ⟨hlk, ⟨e, hgm⟩ | ⟨m, pm, c, r, hE, hdb, hty, hreg, hpm, hc, hgm⟩⟩
    · rw [hmiss] at hlk; exact absurd hlk (by simp)
    · rw [hgm] at h; exact absurd h (by simp)
    · rw [hgm] at h
      simp only [Prod.mk.injEq, Except.ok.injEq] at h
      obtain ⟨ho, hst⟩ := h
      subst ho; subst hst
      have hrun : get_model env
          (clear_cache
            { st with
              model_cache :=
                (cacheKey model_id kwargs,
                  { cls := r.cls, data := r.data, serial := st.next_serial })
                  :: st.model_cache,
              next_serial := st.next_serial + 1 }) model_id kwargs =
          (Except.ok { cls := r.cls, data := r.data, serial := st.next_serial + 1 },
           { model_cache :=
               [(cacheKey model_id kwargs,
                 { cls := r.cls, data := r.data, serial := st.next_serial + 1 })],
             next_serial := st.next_serial + 2,
             default_models := st.default_models }) := by
        simp [get_model, clear_cache, alookup, hE, hdb, hty, hreg, hpm, hc]
      refine ⟨rfl, ⟨_, _, hrun, ?_, rfl⟩⟩
      intro he
      have := congrArg PyObj.serial he
      simp at this

/-- The manager state after the first parameter-less construction for
"m1" from the empty cache. -/
def stHit0 : MMState :=
  { model_cache := [(cacheKey "m1" [], objA)], next_serial := 1,
    default_models := some drec0 }

/-- C6, witness: after a first construction for "m1" and a cache clear,
the call constructs a fresh instance. -/
theorem clear_cache_spec_witness :
    alookup (cacheKey "m1" []) (clear_cache stHit0).model_cache = none ∧
    ∃ o2 st2,
      get_model testEnv (clear_cache stHit0) "m1" [] = (Except.ok o2, st2) ∧
      o2 ≠ objA ∧ st2.next_serial = (clear_cache stHit0).next_serial + 1 :=
  clear_cache_spec.2 testEnv st0 "m1" [] objA stHit0 rfl rfl

/-- C1, witness: repeating the `pA` call against the state it produced is
a cache hit returning the identical instance with the state untouched. -/
theorem get_model_memoization_witness :
    get_model testEnv stA "m1" pA = (Except.ok objA, stA) :=
  get_model_memoization.1 testEnv st0 "m1" pA objA stA rfl rfl

/-- Every constructor reachable through the registry yields objects of the
four recognized model classes. -/
def GoodEnv (env : Env) : Prop :=
  ∀ t pm, env.registry t = some pm → ∀ pr c, pm pr = some c →
    ∀ n p r, c n p = Except.ok r → r.cls ≠ PyClass.OtherClass

/-- Every cache entry holds an object of a recognized model class. -/
def CacheRecognized (cache : List (String × PyObj)) : Prop :=
  ∀ e ∈ cache, isModelType e.2 = true

/-- Provided every registry constructor returns recognized classes, one
`get_model` call preserves the all-recognized cache invariant. -/
theorem get_model_preserves_recognized (env : Env) (st : MMState)
    (model_id : String) (kwargs : Params) (hgood : GoodEnv env)
    (hrec : CacheRecognized st.model_cache) :
    CacheRecognized (get_model env st model_id kwargs).2.model_cache := by
  rcases get_model_cases env st model_id kwargs with
    ⟨o, hlk, ⟨hk, hgm⟩ | ⟨hk, hgm⟩⟩ |
    ⟨hlk, ⟨e, hgm⟩ | ⟨m, pm, c, r, hE, hdb, hty, hreg, hpm, hc, hgm⟩⟩
  · rw [hgm]; exact hrec
  · rw [hgm]; exact hrec
  · rw [hgm]; exact hrec
  · rw [hgm]
    intro entry hmem
    rcases List.mem_cons.mp hmem with hhd | htl
    · subst hhd
      have hcls : r.cls ≠ PyClass.OtherClass :=
        hgood m.type pm hreg m.provider c hpm m.name kwargs r hc
      cases hr : r.cls with
      | OtherClass => exact absurd hr hcls
      | LanguageModel => simp [isModelType, hr]
      | EmbeddingModel => simp [isModelType, hr]
      | SpeechToTextModel => simp [isModelType, hr]
      | TextToSpeechModel => simp [isModelType, hr]
    · exact hrec entry htl

/-- C7: on a cache hit, `get_model` returns the cached instance only after
the isinstance check against the four recognized model classes, raising
the internal-consistency type error when the check fails; and provided
every registry constructor returns objects of recognized classes, a cache
whose entries are all recognized stays that way across every
cache-touching operation of the manager, so the cache never holds an
object outside the recognized kind set. -/
theorem cache_kind_check :
    (∀ (env : Env) (st : MMState) (model_id : String) (kwargs : Params)
        (o : PyObj),
      alookup (cacheKey model_id kwargs) st.model_cache = some o →
      (isModelType o = true →
        get_model env st model_id kwargs = (Except.ok o, st)) ∧
      (isModelType o = false →
        get_model env st model_id kwargs =
          (Except.error (Err.typeError
            ("Cached model is of unexpected type: " ++ clsName o.cls)), st))) ∧
    (∀ (env : Env) (st : MMState) (model_id : String) (kwargs : Params),
      GoodEnv env → CacheRecognized st.model_cache →
      CacheRecognized (get_model env st model_id kwargs).2.model_cache) ∧
    (∀ (env : Env) (st : MMState) (model_type : String) (kwargs : Params),
      GoodEnv env → CacheRecognized st.model_cache →
      CacheRecognized (get_default_model env st model_type kwargs).2.model_cache) ∧
    (∀ (env : Env) (st : MMState),
      CacheRecognized st.model_cache →
      CacheRecognized (refresh_defaults env st).model_cache) ∧
    (∀ st : MMState, CacheRecognized (clear_cache st).model_cache) := by
  refine ⟨?_, ?_, ?_, ?_, ?_⟩
  · intro env st model_id kwargs o hlk
    exact ⟨fun hk => by simp [get_model, hlk, hk],
           fun hk => by simp [get_model, hlk, hk]⟩
  · intro env st model_id kwargs hgood hrec
    exact get_model_preserves_recognized env st model_id kwargs hgood hrec
  · intro env st model_type kwargs hgood hrec
    have key : ∀ (st1 : MMState) (mid : Option String) (e : Err),
        CacheRecognized st1.model_cache →
        CacheRecognized
          ((if truthyOpt mid = true then get_model env st1 (mid.getD "") kwargs
            else (Except.error e, st1)).2.model_cache) := by
      intro st1 mid e hr
      split
      · exact get_model_preserves_recognized env st1 _ kwargs hgood hr
      · exact hr
    cases hd : st.default_models with
    | some d =>
      rw [get_default_model]
      simp only [defaultsProp, hd]
      exact key st _ _ hrec
    | none =>
      rw [get_default_model]
      simp only [defaultsProp, hd, refresh_defaults]
      exact key _ _ _ hrec
  · intro env st hrec
    exact hrec
  · intro st entry hmem
    cases hmem

/-- C7, witness: a hit on a cached recognized instance returns it. -/
theorem cache_kind_check_witness :
    get_model testEnv stHit0 "m1" [] = (Except.ok objA, stHit0) :=
  ((cache_kind_check.1 testEnv stHit0 "m1" [] objA rfl).1) rfl

/-- C8: each convenience accessor performs a parameter-less
`get_default_model` lookup for its fixed purpose, returns the result when
its runtime class matches the expected capability, raises the
type-mismatch error when it does not, and propagates any lookup failure. -/
theorem convenience_accessors :
    (∀ (env : Env) (st : MMState) (o : PyObj) (st1 : MMState),
      get_default_model env st "speech_to_text" [] = (Except.ok o, st1) →
      (o.cls = PyClass.SpeechToTextModel →
        speech_to_text env st = (Except.ok o, st1)) ∧
      (o.cls ≠ PyClass.SpeechToTextModel →
        speech_to_text env st =
          (Except.error (Err.typeError
            ("Expected SpeechToTextModel but got " ++ clsName o.cls)), st1))) ∧
    (∀ (env : Env) (st : MMState) (e : Err) (st1 : MMState),
      get_default_model env st "speech_to_text" [] = (Except.error e, st1) →
      speech_to_text env st = (Except.error e, st1)) ∧
    (∀ (env : Env) (st : MMState) (o : PyObj) (st1 : MMState),
      get_default_model env st "text_to_speech" [] = (Except.ok o, st1) →
      (o.cls = PyClass.TextToSpeechModel →
        text_to_speech env st = (Except.ok o, st1)) ∧
      (o.cls ≠ PyClass.TextToSpeechModel →
        text_to_speech env st =
          (Except.error (Err.typeError
            ("Expected TextToSpeechModel but got " ++ clsName o.cls)), st1))) ∧
    (∀ (env : Env) (st : MMState) (e : Err) (st1 : MMState),
      get_default_model env st "text_to_speech" [] = (Except.error e, st1) →
      text_to_speech env st = (Except.error e, st1)) ∧
    (∀ (env : Env) (st : MMState) (o : PyObj) (st1 : MMState),
      get_default_model env st "embedding" [] = (Except.ok o, st1) →
      (o.cls = PyClass.EmbeddingModel →
        embedding_model env st = (Except.ok o, st1)) ∧
      (o.cls ≠ PyClass.EmbeddingModel →
        embedding_model env st =
          (Except.error (Err.typeError
            ("Expected EmbeddingModel but got " ++ clsName o.cls)), st1))) ∧
    (∀ (env : Env) (st : MMState) (e : Err) (st1 : MMState),
      get_default_model env st "embedding" [] = (Except.error e, st1) →
      embedding_model env st = (Except.error e, st1)) := by
  refine ⟨?_, ?_, ?_, ?_, ?_, ?_⟩
  · intro env st o st1 h
    exact ⟨fun hc => by simp [speech_to_text, h, hc],
           fun hc => by simp [speech_to_text, h, hc]⟩
  · intro env st e st1 h
    simp [speech_to_text, h]
  · intro env st o st1 h
    exact ⟨fun hc => by simp [text_to_speech, h, hc],
           fun hc => by simp [text_to_speech, h, hc]⟩
  · intro env st e st1 h
    simp [text_to_speech, h]
  · intro env st o st1 h
    exact ⟨fun hc => by simp [embedding_model, h, hc],
           fun hc => by simp [embedding_model, h, hc]⟩
  · intro env st e st1 h
    simp [embedding_model, h]

/-- The manager state after the speech-to-text default lookup resolved
"m1" and constructed the (language-model) instance. -/
def stSttAfter : MMState :=
  { model_cache := [(cacheKey "m1" [], objA)], next_serial := 1,
    default_models := some drecStt }

/-- C8, witness: with the speech-to-text default resolving to a language
model, the accessor raises the type-mismatch error. -/
theorem convenience_accessors_witness :
    speech_to_text testEnv stStt =
      (Except.error (Err.typeError
        ("Expected SpeechToTextModel but got " ++ clsName objA.cls)),
       stSttAfter) :=
  (convenience_accessors.1 testEnv stStt objA stSttAfter rfl).2 (by decide)

/-- A present non-empty identifier is truthy. -/
theorem truthyOpt_some_of_ne (s : String) (h : s ≠ "") :
    truthyOpt (some s) = true := by
  simp [truthyOpt, truthyStr, isEmpty_false_of_ne s h]

/-- C3: default resolution of `get_default_model` on a ready state.
Transformation and tools resolve to their own default when it is set
(non-empty) and fall back to the chat default otherwise; chat, embedding,
text-to-speech, speech-to-text and large-context resolve only to their own
default; an unset or empty resolved identifier, or a purpose outside the
enumerated seven, raises the no-default-configured error; a resolved
identifier delegates to `get_model` with it and the caller parameters. -/
theorem get_default_model_resolution (env : Env) (st : MMState)
    (d : DefaultModels) (kwargs : Params)
    (h : st.default_models = some d) :
    (∀ c, d.default_chat_model = some c → c ≠ "" →
      get_default_model env st "chat" kwargs = get_model env st c kwargs) ∧
    (truthyOpt d.default_chat_model = false →
      get_default_model env st "chat" kwargs =
        (Except.error (Err.valueError
          ("No default model configured for type: " ++ "chat")), st)) ∧
    (∀ t, d.default_transformation_model = some t → t ≠ "" →
      get_default_model env st "transformation" kwargs =
        get_model env st t kwargs) ∧
    (truthyOpt d.default_transformation_model = false →
      ∀ c, d.default_chat_model = some c → c ≠ "" →
        get_default_model env st "transformation" kwargs =
          get_model env st c kwargs) ∧
    (truthyOpt d.default_transformation_model = false →
      truthyOpt d.default_chat_model = false →
      get_default_model env st "transformation" kwargs =
        (Except.error (Err.valueError
          ("No default model configured for type: " ++ "transformation")), st)) ∧
    (∀ t, d.default_tools_model = some t → t ≠ "" →
      get_default_model env st "tools" kwargs = get_model env st t kwargs) ∧
    (truthyOpt d.default_tools_model = false →
      ∀ c, d.default_chat_model = some c → c ≠ "" →
        get_default_model env st "tools" kwargs = get_model env st c kwargs) ∧
    (truthyOpt d.default_tools_model = false →
      truthyOpt d.default_chat_model = false →
      get_default_model env st "tools" kwargs =
        (Except.error (Err.valueError
          ("No default model configured for type: " ++ "tools")), st)) ∧
    (∀ c, d.default_embedding_model = some c → c ≠ "" →
      get_default_model env st "embedding" kwargs = get_model env st c kwargs) ∧
    (truthyOpt d.default_embedding_model = false →
      get_default_model env st "embedding" kwargs =
        (Except.error (Err.valueError
          ("No default model configured for type: " ++ "embedding")), st)) ∧
    (∀ c, d.default_text_to_speech_model = some c → c ≠ "" →
      get_default_model env st "text_to_speech" kwargs =
        get_model env st c kwargs) ∧
    (truthyOpt d.default_text_to_speech_model = false →
      get_default_model env st "text_to_speech" kwargs =
        (Except.error (Err.valueError
          ("No default model configured for type: " ++ "text_to_speech")), st)) ∧
    (∀ c, d.default_speech_to_text_model = some c → c ≠ "" →
      get_default_model env st "speech_to_text" kwargs =
        get_model env st c kwargs) ∧
    (truthyOpt d.default_speech_to_text_model = false →
      get_default_model env st "speech_to_text" kwargs =
        (Except.error (Err.valueError
          ("No default model configured for type: " ++ "speech_to_text")), st)) ∧
    (∀ c, d.large_context_model = some c → c ≠ "" →
      get_default_model env st "large_context" kwargs =
        get_model env st c kwargs) ∧
    (truthyOpt d.large_context_model = false →
      get_default_model env st "large_context" kwargs =
        (Except.error (Err.valueError
          ("No default model configured for type: " ++ "large_context")), st)) ∧
    (∀ mt : String, mt ≠ "chat" → mt ≠ "transformation" → mt ≠ "tools" →
      mt ≠ "embedding" → mt ≠ "text_to_speech" → mt ≠ "speech_to_text" →
      mt ≠ "large_context" →
      get_default_model env st mt kwargs =
        (Except.error (Err.valueError
          ("No default model configured for type: " ++ mt)), st)) := by
  refine ⟨?_, ?_, ?_, ?_, ?_, ?_, ?_, ?_, ?_, ?_, ?_, ?_, ?_, ?_, ?_, ?_, ?_⟩
  · intro c hc hcne
    simp [get_default_model, defaultsProp, h, truthyOpt, truthyStr, hc,
      isEmpty_false_of_ne c hcne]
  · intro ht
    simp [get_default_model, defaultsProp, h, ht]
  · intro t htr htne
    simp [get_default_model, defaultsProp, h, pyOr, truthyOpt, truthyStr, htr,
      isEmpty_false_of_ne t htne]
  · intro ht c hc hcne
    simp [get_default_model, defaultsProp, h, pyOr, ht, hc,
      truthyOpt_some_of_ne c hcne]
  · intro ht hc
    simp [get_default_model, defaultsProp, h, pyOr, ht, hc]
  · intro t htr htne
    simp [get_default_model, defaultsProp, h, pyOr, truthyOpt, truthyStr, htr,
      isEmpty_false_of_ne t htne]
  · intro ht c hc hcne
    simp [get_default_model, defaultsProp, h, pyOr, ht, hc,
      truthyOpt_some_of_ne c hcne]
  · intro ht hc
    simp [get_default_model, defaultsProp, h, pyOr, ht, hc]
  · intro c hc hcne
    simp [get_default_model, defaultsProp, h, truthyOpt, truthyStr, hc,
      isEmpty_false_of_ne c hcne]
  · intro ht
    simp [get_default_model, defaultsProp, h, ht]
  · intro c hc hcne
    simp [get_default_model, defaultsProp, h, truthyOpt, truthyStr, hc,
      isEmpty_false_of_ne c hcne]
  · intro ht
    simp [get_default_model, defaultsProp, h, ht]
  · intro c hc hcne
    simp [get_default_model, defaultsProp, h, truthyOpt, truthyStr, hc,
      isEmpty_false_of_ne c hcne]
  · intro ht
    simp [get_default_model, defaultsProp, h, ht]
  · intro c hc hcne
    simp [get_default_model, defaultsProp, h, truthyOpt, truthyStr, hc,
      isEmpty_false_of_ne c hcne]
  · intro ht
    simp [get_default_model, defaultsProp, h, ht]
  · intro mt h1 h2 h3 h4 h5 h6 h7
    simp [get_default_model, defaultsProp, h, h1, h2, h3, h4, h5, h6, h7,
      truthyOpt]

/-- C3, witness: with only the chat default set, the transformation
purpose falls back to it and delegates to `get_model`. -/
theorem get_default_model_resolution_witness :
    get_default_model testEnv stChat "transformation" [] =
      get_model testEnv stChat "m1" [] :=
  (get_default_model_resolution testEnv stChat drecChat [] rfl).2.2.2.1
    rfl "m1" rfl (by decide)

end OpenNotebook
